import Mathlib

/-!
Verification of the story-sentinel node-upgrade orchestrator.

Each Python function that a claim depends on is shallowly embedded as an
executable Lean definition.  External effects (subprocess calls, HTTP
requests, the file system, the wall clock) are modelled by explicit
environment records supplying the outcome of every external operation,
and by explicit state records counting the operations performed and
accumulating the persisted history.  Machine-independent data (version
strings, schedules, serialized durations) is embedded directly.
-/

/-! ## Version comparison (src/sentinel/watcher.py, class Version)

`Version.__gt__` parses each version string with
`version.lstrip('v')` followed by `re.findall(r'\d+', version)`,
converts the digit runs to integers and compares the tuples with
Python tuple `>` (lexicographic; a proper prefix is smaller).
-/
/-- Model of Python `str.lstrip('v')`: drop leading 'v' characters. -/
def lstripV : List Char → List Char
  | [] => []
  | c :: cs => if c = 'v' then lstripV cs else c :: cs

/-- Model of `re.findall(r'\d+', s)`: the maximal runs of consecutive
digit characters of `s`, in order. -/
def digitRuns : List Char → List (List Char)
  | [] => []
  | c :: cs =>
    if c.isDigit then
      match cs, digitRuns cs with
      | d :: _, r :: rs => if d.isDigit then (c :: r) :: rs else [c] :: r :: rs
      | d :: _, [] => if d.isDigit then [[c]] else [c] :: []
      | [], _ => [[c]]
    else digitRuns cs

/-- Numeric value of a digit character, as in `int(run)`. -/
def charToDigit (c : Char) : Nat := c.toNat - 48

/-- Value of a run of digit characters (base 10, most significant first). -/
def runVal (cs : List Char) : Nat :=
  cs.foldl (fun acc c => 10 * acc + charToDigit c) 0

/-- Model of `Version._parse_version`: strip leading 'v's, extract the
maximal digit runs, convert each to an integer. -/
def pyParseVersion (version : String) : List Nat :=
  (digitRuns (lstripV version.toList)).map runVal

/-- Python tuple `>` on integer tuples: lexicographic comparison in which
a proper prefix is strictly smaller than every extension. -/
def listLexGt : List Nat → List Nat → Bool
  | [], _ => false
  | _ :: _, [] => true
  | a :: as, b :: bs => if b < a then true else if a < b then false else listLexGt as bs

/-- Model of `Version.__gt__`: compare the parsed tuples. -/
def versionGt (a b : String) : Bool :=
  listLexGt (pyParseVersion a) (pyParseVersion b)

/-! ## Upgrade runner (src/sentinel/runner.py, class UpgradeRunner)

`perform_upgrade` builds an `upgrade_record` dict, runs a `try` body
(pre-upgrade checks, dry-run short circuit, native-script path, legacy
fallback), has an `except` clause that stamps `success=False`, the error
text and an end time onto the record, and a `finally` clause that appends
the record to `self.upgrade_history` exactly once.

External operations are modelled by `RunnerEnv` (the outcome each
collaborator would produce) and the observable effects by `RunnerState`
(call counters for backup/download/stop/start/rollback, a monotone clock
standing for `datetime.now()`, and the in-memory history list that
`_save_upgrade_history` persists).  Python dict keys that are only
present when assigned (`end_time`, `backup_path`) are `Option` fields;
`error` starts as `None`.
-/
/-- One entry of `upgrade_history` as built by `perform_upgrade`. -/
structure UpgradeRecord where
  component : String
  from_version : String
  to_version : String
  start_time : Nat
  dry_run : Bool
  success : Bool
  error : Option String
  end_time : Option Nat
  backup_path : Option String
deriving DecidableEq

/-- Outcomes of the external collaborators consulted during an upgrade.
`stopOk`/`startOk` are indexed by the call count so distinct service
stop/start invocations may behave differently. -/
structure RunnerEnv where
  currentVersion : String
  preflightOk : Bool
  scriptExists : Bool
  nativeOk : Bool
  nativeErrMsg : String
  backupExc : Option String
  backupPath : String
  downloadOk : Bool
  verifyOk : Bool
  stopOk : Nat → Bool
  replaceOk : Bool
  startOk : Nat → Bool
  postVerify : Except String Bool
  rollbackRestoreExc : Bool

/-- Observable effects of a run: call counters, the wall clock, and the
persisted upgrade history. -/
structure RunnerState where
  clock : Nat
  backupCalls : Nat
  downloadCalls : Nat
  stopCalls : Nat
  startCalls : Nat
  rollbackCalls : Nat
  history : List UpgradeRecord

/-- Model of `UpgradeRunner._rollback`: stop the service (result ignored),
restore the backed-up binary (a raised exception is caught inside
`_rollback` and aborts before the start call), then start the service. -/
def rollbackRun (env : RunnerEnv) (s : RunnerState) : RunnerState :=
  let s1 := { s with rollbackCalls := s.rollbackCalls + 1,
                     stopCalls := s.stopCalls + 1 }
  if env.rollbackRestoreExc then s1
  else { s1 with startCalls := s1.startCalls + 1 }

/-- Model of `UpgradeRunner._perform_legacy_upgrade`: backup, download,
verify, stop, replace, start (failure triggers one `_rollback` and an
exception), post-verify (failure triggers one `_rollback` and an
exception).  Its `except Exception` clause converts every raised
exception into a `(False, str(e))` return, so nothing escapes to the
caller's handler and the record keeps `error=None` on these paths. -/
def legacyUpgrade (env : RunnerEnv) (component targetVersion : String)
    (r0 : UpgradeRecord) (s : RunnerState) :
    (Bool × String) × UpgradeRecord × RunnerState :=
  let s1 := { s with backupCalls := s.backupCalls + 1 }
  match env.backupExc with
  | some e => ((false, e), r0, s1)
  | none =>
  let r1 := { r0 with backup_path := some env.backupPath }
  let s2 := { s1 with downloadCalls := s1.downloadCalls + 1 }
  if env.downloadOk = false then ((false, "Failed to download binary"), r1, s2)
  else if env.verifyOk = false then ((false, "Binary verification failed"), r1, s2)
  else
  let stopRes := env.stopOk s2.stopCalls
  let s3 := { s2 with stopCalls := s2.stopCalls + 1 }
  if stopRes = false then ((false, "Failed to stop service"), r1, s3)
  else if env.replaceOk = false then ((false, "Failed to replace binary"), r1, s3)
  else
  let startRes := env.startOk s3.startCalls
  let s4 := { s3 with startCalls := s3.startCalls + 1 }
  if startRes = false then
    ((false, "Failed to start service after upgrade"), r1, rollbackRun env s4)
  else
  match env.postVerify with
  | Except.error e => ((false, e), r1, s4)
  | Except.ok ok =>
    if ok = false then
      ((false, "Post-upgrade verification failed"), r1, rollbackRun env s4)
    else
      let t := s4.clock
      let s5 := { s4 with clock := s4.clock + 1 }
      ((true, "Successfully upgraded " ++ component ++ " to " ++ targetVersion),
       { r1 with success := true, end_time := some t }, s5)

/-- The `upgrade_record` dict as initialized at the top of
`perform_upgrade`: keys not yet assigned (`end_time`, `backup_path`) are
absent and `error` is `None`. -/
def mkRecord (env : RunnerEnv) (component targetVersion : String)
    (dryRun : Bool) (t : Nat) : UpgradeRecord :=
  { component := component, from_version := env.currentVersion,
    to_version := targetVersion, start_time := t, dry_run := dryRun,
    success := false, error := none, end_time := none, backup_path := none }

/-- Model of `UpgradeRunner.perform_upgrade`.  The `try` body is a sum:
`Sum.inl` is an exception reaching the outer `except` clause (which
stamps failure, error text and end time), `Sum.inr` a normal return.
The `finally` clause appends the record to the history in both cases. -/
def perform_upgrade (env : RunnerEnv) (component targetVersion : String)
    (dryRun : Bool) (s0 : RunnerState) : (Bool × String) × RunnerState :=
  let t0 := s0.clock
  let s1 := { s0 with clock := s0.clock + 1 }
  let r0 : UpgradeRecord := mkRecord env component targetVersion dryRun t0
  let body : (String × UpgradeRecord × RunnerState) ⊕
             ((Bool × String) × UpgradeRecord × RunnerState) :=
    if env.preflightOk = false then Sum.inl ("Pre-upgrade checks failed", r0, s1)
    else if dryRun then
      Sum.inr ((true, "Dry run completed successfully"),
               { r0 with success := true }, s1)
    else if env.scriptExists then
      if env.nativeOk then
        let t := s1.clock
        let s2 := { s1 with clock := s1.clock + 1 }
        Sum.inr ((true, "Successfully upgraded " ++ component ++ " to " ++ targetVersion),
                 { r0 with success := true, end_time := some t }, s2)
      else Sum.inl (env.nativeErrMsg, r0, s1)
    else Sum.inr (legacyUpgrade env component targetVersion r0 s1)
  match body with
  | Sum.inl (e, r, s) =>
      let t := s.clock
      let s2 := { s with clock := s.clock + 1 }
      let rF := { r with success := false, error := some e, end_time := some t }
      ((false, "Upgrade failed: " ++ e), { s2 with history := s2.history ++ [rF] })
  | Sum.inr (res, r, s) => (res, { s with history := s.history ++ [r] })

/-- An initial runner state: clock 0, no calls performed, empty history. -/
def initState : RunnerState :=
  { clock := 0, backupCalls := 0, downloadCalls := 0, stopCalls := 0,
    startCalls := 0, rollbackCalls := 0, history := [] }

/-- An environment in which every external operation succeeds and the
legacy (no native script) path is taken. -/
def envAllOk : RunnerEnv :=
  { currentVersion := "1.2.0", preflightOk := true, scriptExists := false,
    nativeOk := true, nativeErrMsg := "script failed", backupExc := none,
    backupPath := "/var/backups/story_1", downloadOk := true, verifyOk := true,
    stopOk := fun _ => true, replaceOk := true, startOk := fun _ => true,
    postVerify := Except.ok true, rollbackRestoreExc := false }

/-- An environment in which the legacy path runs, every step up to binary
replacement succeeds, and every service start fails. -/
def envStartFail : RunnerEnv := { envAllOk with startOk := fun _ => false }

/-- An environment whose pre-upgrade checks fail. -/
def envPreflightFail : RunnerEnv := { envAllOk with preflightOk := false }

/-! ## Upgrade scheduler (src/sentinel/scheduler.py)

`ScheduledUpgrade` is a dataclass persisted through `to_dict` /
`from_dict`.  Times are modelled in seconds: `scheduled_time` is an
integer point on the datetime timeline (`datetime.fromisoformat` of
`datetime.isoformat` is the identity, so the ISO string is represented
by the datetime value it round-trips to), `estimated_duration` a
non-negative whole number of seconds (the code always stores whole
minutes).  The serialized duration string `str(timedelta)` and its
parse in `from_dict` are modelled character by character. -/
structure ScheduledUpgrade where
  component : String
  current_version : String
  target_version : String
  scheduled_time : Int
  estimated_duration : Nat
  status : String
  approval_required : Bool
  notes : Option String
deriving DecidableEq

/-- The dict produced by `ScheduledUpgrade.to_dict`: all fields pass
through unchanged except `scheduled_time` (an ISO string, represented by
the datetime it denotes) and `estimated_duration` (a `str(timedelta)`
character string). -/
structure ScheduledUpgradeDict where
  component : String
  current_version : String
  target_version : String
  scheduled_time_iso : Int
  estimated_duration_str : List Char
  status : String
  approval_required : Bool
  notes : Option String
deriving DecidableEq

/-- The decimal digit characters, as produced by Python number
formatting.  Inputs are always below 10; the catch-all keeps the
function total. -/
def digitChar : Nat → Char
  | 0 => '0' | 1 => '1' | 2 => '2' | 3 => '3' | 4 => '4'
  | 5 => '5' | 6 => '6' | 7 => '7' | 8 => '8' | _ => '9'

/-- Decimal rendering of a natural number, as Python `str(n)`. -/
def natToChars (n : Nat) : List Char :=
  if n = 0 then ['0'] else ((Nat.digits 10 n).reverse).map digitChar

/-- Two-digit zero-padded rendering, as in the `%02d` minute and second
fields of `str(timedelta)`. -/
def pad2 (n : Nat) : List Char :=
  if n < 10 then '0' :: natToChars n else natToChars n

/-- Model of Python `str(timedelta(seconds=secs))` for a non-negative
whole number of seconds: `H:MM:SS`, prefixed by `D day[s], ` when the
duration reaches one day. -/
def pyStrTimedelta (secs : Nat) : List Char :=
  if secs / 86400 = 0 then
    natToChars (secs % 86400 / 3600) ++
      (':' :: (pad2 (secs % 3600 / 60) ++ (':' :: pad2 (secs % 60))))
  else
    natToChars (secs / 86400) ++
      ((if secs / 86400 = 1 then (" day, ").toList else (" days, ").toList) ++
        (natToChars (secs % 86400 / 3600) ++
          (':' :: (pad2 (secs % 3600 / 60) ++ (':' :: pad2 (secs % 60))))))

/-- Model of Python `str.split(sep)` for a one-character separator. -/
def splitOnChar (sep : Char) : List Char → List (List Char)
  | [] => [[]]
  | c :: cs =>
    if c = sep then [] :: splitOnChar sep cs
    else
      match splitOnChar sep cs with
      | [] => [[c]]
      | r :: rs => (c :: r) :: rs

/-- Model of Python `int(s)` on the strings arising here: succeeds on a
non-empty all-digit string with its decimal value, fails otherwise.
(Python `int` also tolerates signs and surrounding whitespace; the
duration fields parsed by `from_dict` are all-digit on the round-trip
inputs and contain letters or spaces otherwise, where both raise.) -/
def pyInt (cs : List Char) : Option Nat :=
  if cs ≠ [] ∧ cs.all Char.isDigit then some (runVal cs) else none

/-- The duration parser inside `ScheduledUpgrade.from_dict`: a string
containing `:` must split into exactly `hours:minutes:seconds`, each an
`int`, combined as `timedelta(hours, minutes, seconds)` (in seconds);
a string without `:` yields `timedelta(0)`; any `ValueError` (wrong
field count or non-integer field) aborts `from_dict`. -/
def parseDurationStr (cs : List Char) : Option Nat :=
  if ':' ∈ cs then
    match splitOnChar ':' cs with
    | [h, m, s] =>
      match pyInt h, pyInt m, pyInt s with
      | some hn, some mn, some sn => some (3600 * hn + 60 * mn + sn)
      | _, _, _ => none
    | _ => none
  else some 0

/-- Model of `ScheduledUpgrade.to_dict`. -/
def to_dict (u : ScheduledUpgrade) : ScheduledUpgradeDict :=
  { component := u.component, current_version := u.current_version,
    target_version := u.target_version,
    scheduled_time_iso := u.scheduled_time,
    estimated_duration_str := pyStrTimedelta u.estimated_duration,
    status := u.status, approval_required := u.approval_required,
    notes := u.notes }

/-- Model of `ScheduledUpgrade.from_dict`; `none` is a raised
`ValueError`. -/
def from_dict (d : ScheduledUpgradeDict) : Option ScheduledUpgrade :=
  match parseDurationStr d.estimated_duration_str with
  | some dur => some
      { component := d.component, current_version := d.current_version,
        target_version := d.target_version,
        scheduled_time := d.scheduled_time_iso,
        estimated_duration := dur, status := d.status,
        approval_required := d.approval_required, notes := d.notes }
  | none => none

/-- An example scheduled upgrade with a 15-minute estimated duration. -/
def sampleUpgrade : ScheduledUpgrade :=
  { component := "story", current_version := "1.2.0",
    target_version := "1.3.0", scheduled_time := 1735689600,
    estimated_duration := 900, status := "pending",
    approval_required := true, notes := some "Upgrade from 1.2.0 to 1.3.0" }

/-- The default maintenance window computed by
`UpgradeScheduler.get_next_maintenance_window` before conflict
resolution: 02:00 UTC of the current day, moved to the next day when the
current hour is already ≥ 2.  `now` is in seconds since an epoch
midnight. -/
def defaultWindow (now : Nat) : Int :=
  Int.ofNat (now / 86400 * 86400 + 7200 +
    (if 2 ≤ now % 86400 / 3600 then 86400 else 0))

/-- One iteration of the conflict loop in `get_next_maintenance_window`:
a `pending`/`approved` entry whose `[scheduled_time,
scheduled_time+duration]` interval contains the current candidate window
pushes the candidate to its end plus a 30-minute buffer. -/
def windowStep (w : Int) (u : ScheduledUpgrade) : Int :=
  if (u.status = "pending" ∨ u.status = "approved") ∧
      u.scheduled_time ≤ w ∧ w ≤ u.scheduled_time + (u.estimated_duration : Int)
  then u.scheduled_time + (u.estimated_duration : Int) + 1800
  else w

/-- Model of `UpgradeScheduler.get_next_maintenance_window`: fold the
conflict step over the scheduled upgrades in list order. -/
def get_next_maintenance_window (now : Nat)
    (entries : List ScheduledUpgrade) : Int :=
  entries.foldl windowStep (defaultWindow now)

/-- Model of `UpgradeScheduler.schedule_upgrade`: defaulting the time to
the next maintenance window, estimating the duration by component
(story 15 min, otherwise 10 min), appending the new entry and re-sorting
the collection by scheduled time (Python `list.sort` is stable, as is
`mergeSort`).  Returns the new entry and the updated collection. -/
def schedule_upgrade (now : Nat) (entries : List ScheduledUpgrade)
    (component currentVersion targetVersion : String)
    (scheduledTime : Option Int) (autoApprove : Bool) :
    ScheduledUpgrade × List ScheduledUpgrade :=
  let t : Int := match scheduledTime with
    | some t => t
    | none => get_next_maintenance_window now entries
  let baseDuration : Nat := if component = "story" then 900 else 600
  let u : ScheduledUpgrade :=
    { component := component, current_version := currentVersion,
      target_version := targetVersion, scheduled_time := t,
      estimated_duration := baseDuration,
      status := if autoApprove then "approved" else "pending",
      approval_required := !autoApprove,
      notes := some ("Upgrade from " ++ currentVersion ++ " to " ++
        targetVersion) }
  (u, (entries ++ [u]).mergeSort
        (fun a b => decide (a.scheduled_time ≤ b.scheduled_time)))

/-- Model of `UpgradeScheduler.cleanup_old_upgrades`: keep an entry iff
its status is `pending` or `approved`, or its scheduled time is strictly
after `now - days`. -/
def cleanup_old_upgrades (now : Int) (days : Nat)
    (entries : List ScheduledUpgrade) : List ScheduledUpgrade :=
  entries.filter (fun u =>
    decide (u.status = "pending" ∨ u.status = "approved" ∨
      u.scheduled_time > now - (days : Int) * 86400))

/-- A pending entry occupying 01:00–02:30 of the first day. -/
def winEntryA : ScheduledUpgrade :=
  { component := "story", current_version := "1.1.0",
    target_version := "1.2.0", scheduled_time := 3600,
    estimated_duration := 5400, status := "pending",
    approval_required := true, notes := none }

/-- A pending entry occupying 01:30–02:40 of the first day. -/
def winEntryB : ScheduledUpgrade :=
  { component := "story_geth", current_version := "1.0.0",
    target_version := "1.1.0", scheduled_time := 5400,
    estimated_duration := 4200, status := "pending",
    approval_required := true, notes := none }

/-- A completed entry whose scheduled time is exactly at the prune
cutoff. -/
def staleCompleted : ScheduledUpgrade :=
  { component := "story", current_version := "1.2.0",
    target_version := "1.3.0", scheduled_time := 0,
    estimated_duration := 900, status := "completed",
    approval_required := false, notes := none }

/-- A pending entry far in the past. -/
def oldPending : ScheduledUpgrade :=
  { component := "story", current_version := "1.0.0",
    target_version := "1.1.0", scheduled_time := -864000,
    estimated_duration := 900, status := "pending",
    approval_required := true, notes := none }

/-! ## Health checker (src/sentinel/health.py, HealthChecker._check_story)

The probe initializes a `checks` dict with unhealthy defaults and runs
four sub-checks wrapped in their own `try/except` blocks (service
liveness, the RPC status/net_info sequence, the journal scan for
"app hash", the process-memory lookup) followed by the block-production
section (lines 256-270) which is NOT inside any handler.  JSON values
that can be of any type are `PyVal` with Python truthiness; every
exception point is an `Except`, and a sub-check's `Except.error` may
leave the partial mutations it made before raising (the RPC block
assigns `checks[...]` keys one by one). -/
inductive PyVal where
  | pynone
  | pybool (b : Bool)
  | pyint (n : Int)
  | pystr (s : String)
deriving DecidableEq

/-- Python truthiness of the modelled JSON values. -/
def pyTruthy : PyVal → Bool
  | .pynone => false
  | .pybool b => b
  | .pyint n => decide (n ≠ 0)
  | .pystr s => decide (s ≠ "")

/-- Outcome of the `/status` RPC call: presence of `result`, and the
individual field accesses performed on it, each of which can raise
(missing key, `int()` failure). -/
structure StatusPayload where
  hasResult : Bool
  catchingUp : Except String PyVal
  heightVal : Except String Int
  latestBlockTime : Except String PyVal
  hasValidatorInfo : Bool
  votingPower : Except String Int

/-- Outcome of the `/net_info` RPC call. -/
structure NetPayload where
  hasResult : Bool
  peerCount : Except String Nat

/-- The external world as seen by one `_check_story` probe.  `isoParse`
stands for `datetime.fromisoformat` after the `Z` replacement (a `none`
is the `ValueError` it raises on an unparsable string); the
`AttributeError` of calling `.replace` on a non-string is modelled
separately at the call site. -/
structure StoryEnv where
  dockerMode : Bool
  serviceName : String
  svcCheck : Except String Bool
  statusCall : Except String StatusPayload
  netCall : Except String NetPayload
  journalCall : Except String Nat
  memCall : Except String Int
  isoParse : String → Option Int
  minPeers : Nat
  blockTimeVariance : Int
  nowTime : Int

/-- The `checks` dict of `_check_story`. -/
structure StoryChecks where
  service_running : Bool
  rpc_responsive : Bool
  catching_up : PyVal
  latest_block_height : Int
  latest_block_time : PyVal
  voting_power : Int
  peer_count : Nat
  memory_usage_mb : Int
  app_hash_errors : Nat
deriving DecidableEq

/-- The unhealthy defaults the `checks` dict starts from. -/
def initChecks : StoryChecks :=
  { service_running := false, rpc_responsive := false,
    catching_up := PyVal.pynone, latest_block_height := 0,
    latest_block_time := PyVal.pynone, voting_power := 0,
    peer_count := 0, memory_usage_mb := 0, app_hash_errors := 0 }

/-- The assignments made from the `/status` response inside the RPC
`try` block, in source order; `Except.error c` aborts the whole block
keeping the mutations already made. -/
def rpcStatusPart (sp : StatusPayload) (c0 : StoryChecks) :
    Except StoryChecks StoryChecks :=
  if sp.hasResult = true then
    match sp.catchingUp with
    | Except.error _ => Except.error { c0 with rpc_responsive := true }
    | Except.ok cu =>
      match sp.heightVal with
      | Except.error _ =>
        Except.error { c0 with rpc_responsive := true, catching_up := cu }
      | Except.ok hv =>
        match sp.latestBlockTime with
        | Except.error _ =>
          Except.error { c0 with rpc_responsive := true, catching_up := cu,
                                 latest_block_height := hv }
        | Except.ok lbt =>
          if sp.hasValidatorInfo = true then
            match sp.votingPower with
            | Except.error _ =>
              Except.error { c0 with rpc_responsive := true, catching_up := cu,
                                     latest_block_height := hv,
                                     latest_block_time := lbt }
            | Except.ok vp =>
              Except.ok { c0 with rpc_responsive := true, catching_up := cu,
                                  latest_block_height := hv,
                                  latest_block_time := lbt,
                                  voting_power := vp }
          else
            Except.ok { c0 with rpc_responsive := true, catching_up := cu,
                                latest_block_height := hv,
                                latest_block_time := lbt }
  else Except.ok c0

/-- The `/net_info` part of the same `try` block. -/
def rpcNetPart (env : StoryEnv) (c : StoryChecks) : StoryChecks :=
  match env.netCall with
  | Except.error _ => c
  | Except.ok np =>
    if np.hasResult = true then
      match np.peerCount with
      | Except.error _ => c
      | Except.ok p => { c with peer_count := p }
    else c

/-- The whole RPC `try/except` block: any raise (from the status call,
a field access, or the net call) is caught, keeping the partial
mutations. -/
def rpcBlock (env : StoryEnv) (c0 : StoryChecks) : StoryChecks :=
  match env.statusCall with
  | Except.error _ => c0
  | Except.ok sp =>
    match rpcStatusPart sp c0 with
    | Except.error c => c
    | Except.ok c => rpcNetPart env c

/-- The first sub-check: service liveness via `systemctl is-active`
(assumed running in Docker mode; a raised exception keeps the `False`
default). -/
def svcStage (env : StoryEnv) : StoryChecks :=
  if env.dockerMode then { initChecks with service_running := true }
  else
    match env.svcCheck with
    | Except.ok b => { initChecks with service_running := b }
    | Except.error _ => initChecks

/-- The journal-scan sub-check: count of "app hash" occurrences, default
kept on exception. -/
def journalStage (env : StoryEnv) (c : StoryChecks) : StoryChecks :=
  match env.journalCall with
  | Except.ok n => { c with app_hash_errors := n }
  | Except.error _ => c

/-- The process-memory sub-check, default kept on exception. -/
def memStage (env : StoryEnv) (c : StoryChecks) : StoryChecks :=
  match env.memCall with
  | Except.ok m => { c with memory_usage_mb := m }
  | Except.error _ => c

/-- The `checks` dict after the four handled sub-checks (service
liveness, RPC — run only when the service-liveness check succeeded,
journal scan, memory), before the unprotected block-production
section. -/
def checksMid (env : StoryEnv) : StoryChecks :=
  memStage env (journalStage env
    (if (svcStage env).service_running then rpcBlock env (svcStage env)
     else svcStage env))

/-- Parsing `latest_block_time` as the code does at lines 260 and 268:
`.replace` on a non-string raises `AttributeError`, an unparsable string
raises `ValueError`; both escape `_check_story`. -/
def parseBlockTime (env : StoryEnv) (v : PyVal) : Except String Int :=
  match v with
  | PyVal.pystr s =>
    match env.isoParse s with
    | some t => Except.ok t
    | none => Except.error "ValueError: fromisoformat"
  | _ => Except.error "AttributeError: replace"

/-- The unprotected block-production section (health.py lines 256-270):
computes `block_time_healthy` and the updated per-service last block
time, or propagates an exception. -/
def blockTimePart (env : StoryEnv) (lastBT : Option Int) (lbt : PyVal) :
    Except String (Bool × Option Int) :=
  let first : Except String Bool :=
    if pyTruthy lbt = true then
      match lastBT with
      | some lt =>
        match parseBlockTime env lbt with
        | Except.error e => Except.error e
        | Except.ok t =>
          Except.ok (decide (¬ (t - lt > env.blockTimeVariance)))
      | none => Except.ok true
    else Except.ok true
  match first with
  | Except.error e => Except.error e
  | Except.ok bth =>
    if pyTruthy lbt = true then
      match parseBlockTime env lbt with
      | Except.error e => Except.error e
      | Except.ok t => Except.ok (bth, some t)
    else Except.ok (bth, lastBT)

/-- The health report returned by `_check_story`. -/
structure StoryHealth where
  healthy : Bool
  service_name : String
  checks : StoryChecks
  timestamp : Int
  message : String

/-- Model of `HealthChecker._check_story`; the second component is the
updated `last_block_times` entry for the service, and an `Except.error`
is an exception escaping the probe. -/
def checkStory (env : StoryEnv) (lastBT : Option Int) :
    Except String (StoryHealth × Option Int) :=
  let c := checksMid env
  match blockTimePart env lastBT c.latest_block_time with
  | Except.error e => Except.error e
  | Except.ok (bth, newLast) =>
    let healthy := c.service_running && c.rpc_responsive &&
      !(pyTruthy c.catching_up) && decide (env.minPeers ≤ c.peer_count) &&
      decide (c.app_hash_errors = 0) && bth
    let message :=
      if !c.service_running then env.serviceName ++ " service is not running"
      else if !c.rpc_responsive then env.serviceName ++ " RPC is not responsive"
      else if pyTruthy c.catching_up then
        env.serviceName ++ " is catching up (height " ++
          toString c.latest_block_height ++ ")"
      else if c.peer_count < env.minPeers then
        env.serviceName ++ " has low peer count: " ++ toString c.peer_count
      else if 0 < c.app_hash_errors then env.serviceName ++ " has app hash errors"
      else if !bth then env.serviceName ++ " has slow block production"
      else ""
    Except.ok ({ healthy := healthy, service_name := env.serviceName,
                 checks := c, timestamp := env.nowTime, message := message },
               newLast)

/-- The status payload of a node that is still catching up. -/
def spCatchingUp : StatusPayload :=
  { hasResult := true, catchingUp := Except.ok (PyVal.pybool true),
    heightVal := Except.ok 12345,
    latestBlockTime := Except.ok (PyVal.pystr "2024-01-01T00:00:00Z"),
    hasValidatorInfo := true, votingPower := Except.ok 1000000 }

/-- A probe environment whose node reports catching_up=true with a
healthy peer count and no app-hash errors. -/
def envCatchingUp : StoryEnv :=
  { dockerMode := true, serviceName := "story",
    svcCheck := Except.ok true,
    statusCall := Except.ok spCatchingUp,
    netCall := Except.ok { hasResult := true, peerCount := Except.ok 50 },
    journalCall := Except.ok 0, memCall := Except.ok 1024,
    isoParse := fun _ => some 1704067200,
    minPeers := 3, blockTimeVariance := 60, nowTime := 0 }

/-- A status payload whose `latest_block_time` field is a JSON number
instead of a string. -/
def spBadBlockTime : StatusPayload :=
  { hasResult := true, catchingUp := Except.ok (PyVal.pybool false),
    heightVal := Except.ok 100,
    latestBlockTime := Except.ok (PyVal.pyint 5),
    hasValidatorInfo := false, votingPower := Except.ok 0 }

/-- A probe environment returning a malformed (non-string)
`latest_block_time`. -/
def envBadBlockTime : StoryEnv :=
  { dockerMode := true, serviceName := "story",
    svcCheck := Except.ok true,
    statusCall := Except.ok spBadBlockTime,
    netCall := Except.ok { hasResult := true, peerCount := Except.ok 10 },
    journalCall := Except.ok 0, memCall := Except.ok 0,
    isoParse := fun _ => none,
    minPeers := 3, blockTimeVariance := 60, nowTime := 0 }

/-- A probe environment in which every external call raises. -/
def envAllErrors : StoryEnv :=
  { dockerMode := false, serviceName := "story",
    svcCheck := Except.error "subprocess failed",
    statusCall := Except.error "connection refused",
    netCall := Except.error "connection refused",
    journalCall := Except.error "journalctl failed",
    memCall := Except.error "psutil failed",
    isoParse := fun _ => none,
    minPeers := 3, blockTimeVariance := 60, nowTime := 0 }

/-! ## Theorems -/

theorem listLexGt_iff_lex (as bs : List Nat) :
    listLexGt as bs = true ↔ List.Lex (fun x y : Nat => x < y) bs as := by
  induction as generalizing bs with
  | nil =>
    simp only [listLexGt]
    constructor
    · intro h; cases h
    · intro h; exact absurd h (List.Lex.not_nil_right _ _)
  | cons a as ih =>
    cases bs with
    | nil =>
      simp only [listLexGt]
      exact ⟨fun _ => List.Lex.nil, fun _ => trivial⟩
    | cons b bs =>
      simp only [listLexGt]
      by_cases hba : b < a
      · simp only [hba, if_true]
        exact ⟨fun _ => List.Lex.rel hba, fun _ => trivial⟩
      · by_cases hab : a < b
        · simp only [hba, if_false, hab, if_true]
          constructor
          · intro h; cases h
          · intro h
            cases h with
            | cons h => exact absurd hab (lt_irrefl a)
            | rel h => exact absurd h hba
        · have heq : a = b := le_antisymm (not_lt.mp hba) (not_lt.mp hab)
          subst heq
          simp only [hba, if_false, hab, if_true]
          rw [ih bs]
          constructor
          · intro h; exact List.Lex.cons h
          · intro h
            cases h with
            | cons h => exact h
            | rel h => exact absurd h (lt_irrefl a)

/-- C2 counterexample: the claim states that `1.2.3` and `1.2.3.0` compare
equal (neither is greater).  In the code, Python tuple comparison makes a
proper prefix strictly smaller, so `Version("1.2.3.0") > Version("1.2.3")`
evaluates to True while the converse is False. -/
theorem versionGt_no_zero_padding :
    versionGt "1.2.3.0" "1.2.3" = true ∧ versionGt "1.2.3" "1.2.3.0" = false := by
  exact ⟨rfl, rfl⟩

/-- C2 (amended): `Version(a) > Version(b)` holds iff the tuple of maximal
digit runs of `b` is lexicographically smaller than that of `a` in the
standard (Python tuple) sense, in which a proper prefix is strictly
smaller than every extension — there is no zero padding.  In particular
`1.10.0 > 1.9.0` holds, and `1.2.3.0 > 1.2.3` also holds. -/
theorem versionGt_iff_lex :
    (∀ a b : String,
      versionGt a b = true ↔
        List.Lex (fun x y : Nat => x < y) (pyParseVersion b) (pyParseVersion a)) ∧
    versionGt "1.10.0" "1.9.0" = true := by
  exact ⟨fun a b => listLexGt_iff_lex (pyParseVersion a) (pyParseVersion b), rfl⟩

theorem mkRecord_component (env : RunnerEnv) (c v : String) (d : Bool) (t : Nat) :
    (mkRecord env c v d t).component = c := rfl

theorem mkRecord_to_version (env : RunnerEnv) (c v : String) (d : Bool) (t : Nat) :
    (mkRecord env c v d t).to_version = v := rfl

theorem mkRecord_dry_run (env : RunnerEnv) (c v : String) (d : Bool) (t : Nat) :
    (mkRecord env c v d t).dry_run = d := rfl

theorem mkRecord_start_time (env : RunnerEnv) (c v : String) (d : Bool) (t : Nat) :
    (mkRecord env c v d t).start_time = t := rfl

theorem mkRecord_success (env : RunnerEnv) (c v : String) (d : Bool) (t : Nat) :
    (mkRecord env c v d t).success = false := rfl

theorem mkRecord_error (env : RunnerEnv) (c v : String) (d : Bool) (t : Nat) :
    (mkRecord env c v d t).error = none := rfl

theorem mkRecord_end_time (env : RunnerEnv) (c v : String) (d : Bool) (t : Nat) :
    (mkRecord env c v d t).end_time = none := rfl

/-- Fields of the upgrade record that `_perform_legacy_upgrade` never
touches are preserved, and the record it returns either marks a success
with an end time or leaves success, error and end time as they were
(legacy failures return normally, so the outer handler never stamps
them). -/
theorem legacyUpgrade_record_spec (env : RunnerEnv) (c v : String)
    (r0 : UpgradeRecord) (s : RunnerState) :
    ((legacyUpgrade env c v r0 s).2.1.component = r0.component ∧
     (legacyUpgrade env c v r0 s).2.1.from_version = r0.from_version ∧
     (legacyUpgrade env c v r0 s).2.1.to_version = r0.to_version ∧
     (legacyUpgrade env c v r0 s).2.1.dry_run = r0.dry_run ∧
     (legacyUpgrade env c v r0 s).2.1.start_time = r0.start_time ∧
     (legacyUpgrade env c v r0 s).2.1.error = r0.error) ∧
    (((legacyUpgrade env c v r0 s).1.1 = true ∧
      (legacyUpgrade env c v r0 s).2.1.success = true ∧
      (legacyUpgrade env c v r0 s).2.1.end_time.isSome = true) ∨
     ((legacyUpgrade env c v r0 s).1.1 = false ∧
      (legacyUpgrade env c v r0 s).2.1.success = r0.success ∧
      (legacyUpgrade env c v r0 s).2.1.end_time = r0.end_time)) := by
  unfold legacyUpgrade
  cases hb : env.backupExc with
  | some e => simp
  | none =>
    by_cases hd : env.downloadOk = false
    · simp [hd]
    · by_cases hv : env.verifyOk = false
      · simp [hd, hv]
      · by_cases hs : env.stopOk s.stopCalls = false
        · simp [hd, hv, hs]
        · by_cases hr : env.replaceOk = false
          · simp [hd, hv, hs, hr]
          · by_cases hst : env.startOk s.startCalls = false
            · simp [hd, hv, hs, hr, hst]
            · cases hpv : env.postVerify with
              | error e => simp [hd, hv, hs, hr, hst]
              | ok ok =>
                by_cases hok : ok = false
                · simp [hd, hv, hs, hr, hst, hok]
                · simp [hd, hv, hs, hr, hst, hok]

/-- History is untouched by the legacy upgrade path: `_perform_legacy_upgrade`
never appends to `upgrade_history` itself. -/
theorem legacyUpgrade_preserves_history (env : RunnerEnv) (c v : String)
    (r0 : UpgradeRecord) (s : RunnerState) :
    (legacyUpgrade env c v r0 s).2.2.history = s.history := by
  unfold legacyUpgrade rollbackRun
  cases hb : env.backupExc with
  | some e => rfl
  | none =>
    by_cases hd : env.downloadOk = false
    · simp [hd]
    · by_cases hv : env.verifyOk = false
      · simp [hd, hv]
      · by_cases hs : env.stopOk s.stopCalls = false
        · simp [hd, hv, hs]
        · by_cases hr : env.replaceOk = false
          · simp [hd, hv, hs, hr]
          · by_cases hst : env.startOk s.startCalls = false
            · by_cases hrr : env.rollbackRestoreExc <;> simp [hd, hv, hs, hr, hst, hrr]
            · cases hpv : env.postVerify with
              | error e => simp [hd, hv, hs, hr, hst]
              | ok ok =>
                by_cases hok : ok = false
                · by_cases hrr : env.rollbackRestoreExc <;>
                    simp [hd, hv, hs, hr, hst, hok, hrr]
                · simp [hd, hv, hs, hr, hst, hok]

/-- Path equation: failing pre-upgrade checks raise straight to the outer
handler; the failure record is stamped and appended, nothing else runs. -/
theorem perform_upgrade_preflight_fail_eq (env : RunnerEnv) (c v : String)
    (d : Bool) (s0 : RunnerState) (h : env.preflightOk = false) :
    perform_upgrade env c v d s0 =
      ((false, "Upgrade failed: Pre-upgrade checks failed"),
       { s0 with clock := s0.clock + 1 + 1,
                 history := s0.history ++
                   [{ mkRecord env c v d s0.clock with
                      success := false,
                      error := some "Pre-upgrade checks failed",
                      end_time := some (s0.clock + 1) }] }) := by
  unfold perform_upgrade
  rw [h]
  rfl

/-- Path equation: dry-run mode (with passing preflight) returns right
after the preflight check with a synthetic success; no end time is set. -/
theorem perform_upgrade_dry_run_eq (env : RunnerEnv) (c v : String)
    (s0 : RunnerState) (h : env.preflightOk = true) :
    perform_upgrade env c v true s0 =
      ((true, "Dry run completed successfully"),
       { s0 with clock := s0.clock + 1,
                 history := s0.history ++
                   [{ mkRecord env c v true s0.clock with success := true }] }) := by
  unfold perform_upgrade
  rw [h]
  rfl

/-- Path equation: the native-script path on success stamps success and an
end time. -/
theorem perform_upgrade_native_ok_eq (env : RunnerEnv) (c v : String)
    (s0 : RunnerState) (hp : env.preflightOk = true)
    (hs : env.scriptExists = true) (hn : env.nativeOk = true) :
    perform_upgrade env c v false s0 =
      ((true, "Successfully upgraded " ++ c ++ " to " ++ v),
       { s0 with clock := s0.clock + 1 + 1,
                 history := s0.history ++
                   [{ mkRecord env c v false s0.clock with
                      success := true, end_time := some (s0.clock + 1) }] }) := by
  unfold perform_upgrade
  rw [hp, hs, hn]
  rfl

/-- Path equation: a failing native script raises its message to the outer
handler, which stamps failure, error text and end time. -/
theorem perform_upgrade_native_fail_eq (env : RunnerEnv) (c v : String)
    (s0 : RunnerState) (hp : env.preflightOk = true)
    (hs : env.scriptExists = true) (hn : env.nativeOk = false) :
    perform_upgrade env c v false s0 =
      ((false, "Upgrade failed: " ++ env.nativeErrMsg),
       { s0 with clock := s0.clock + 1 + 1,
                 history := s0.history ++
                   [{ mkRecord env c v false s0.clock with
                      success := false, error := some env.nativeErrMsg,
                      end_time := some (s0.clock + 1) }] }) := by
  unfold perform_upgrade
  rw [hp, hs, hn]
  rfl

/-- Path equation: with no native script the legacy upgrade runs and its
outcome is returned directly, with the (possibly updated) record appended
by the `finally` clause as-is — the outer handler never fires. -/
theorem perform_upgrade_legacy_eq (env : RunnerEnv) (c v : String)
    (s0 : RunnerState) (hp : env.preflightOk = true)
    (hs : env.scriptExists = false) :
    perform_upgrade env c v false s0 =
      ((legacyUpgrade env c v (mkRecord env c v false s0.clock)
          { s0 with clock := s0.clock + 1 }).1,
       { (legacyUpgrade env c v (mkRecord env c v false s0.clock)
            { s0 with clock := s0.clock + 1 }).2.2 with
         history := (legacyUpgrade env c v (mkRecord env c v false s0.clock)
            { s0 with clock := s0.clock + 1 }).2.2.history ++
           [(legacyUpgrade env c v (mkRecord env c v false s0.clock)
              { s0 with clock := s0.clock + 1 }).2.1] }) := by
  unfold perform_upgrade
  rw [hp, hs]
  rfl

/-- C1 (amended): every call to `perform_upgrade` — success, dry-run, or
failure at any stage — appends exactly one record to the upgrade history,
carrying the attempt's start timestamp; but the end timestamp is present
exactly when the attempt is a real (non-dry-run) success or a failure
whose exception reached the outer handler (which also stamps the error
text), so dry-run successes carry no end timestamp and legacy-path
failures carry neither end timestamp nor error text. -/
theorem perform_upgrade_appends_one_record (env : RunnerEnv) (c v : String)
    (d : Bool) (s0 : RunnerState) :
    ∃ r : UpgradeRecord,
      ((perform_upgrade env c v d s0).2).history = s0.history ++ [r] ∧
      r.component = c ∧ r.to_version = v ∧ r.dry_run = d ∧
      r.start_time = s0.clock ∧
      r.end_time.isSome = (r.success && !r.dry_run || r.error.isSome) ∧
      (r.error.isSome = true → r.success = false) := by
  cases hp : env.preflightOk with
  | false =>
    rw [perform_upgrade_preflight_fail_eq env c v d s0 hp]
    exact ⟨_, rfl, rfl, rfl, rfl, rfl, rfl, fun _ => rfl⟩
  | true =>
    cases d with
    | true =>
      rw [perform_upgrade_dry_run_eq env c v s0 hp]
      refine ⟨_, rfl, rfl, rfl, rfl, rfl, rfl, fun h => ?_⟩
      simp [mkRecord] at h
    | false =>
      cases hs : env.scriptExists with
      | true =>
        cases hn : env.nativeOk with
        | true =>
          rw [perform_upgrade_native_ok_eq env c v s0 hp hs hn]
          refine ⟨_, rfl, rfl, rfl, rfl, rfl, rfl, fun h => ?_⟩
          simp [mkRecord] at h
        | false =>
          rw [perform_upgrade_native_fail_eq env c v s0 hp hs hn]
          exact ⟨_, rfl, rfl, rfl, rfl, rfl, rfl, fun _ => rfl⟩
      | false =>
        rw [perform_upgrade_legacy_eq env c v s0 hp hs]
        have hh := legacyUpgrade_preserves_history env c v
          (mkRecord env c v false s0.clock) { s0 with clock := s0.clock + 1 }
        obtain ⟨⟨h1, h2, h3, h4, h5, h6⟩, hcase⟩ := legacyUpgrade_record_spec env c v
          (mkRecord env c v false s0.clock) { s0 with clock := s0.clock + 1 }
        rw [mkRecord_component] at h1
        rw [mkRecord_to_version] at h3
        rw [mkRecord_dry_run] at h4
        rw [mkRecord_start_time] at h5
        rw [mkRecord_error] at h6
        refine ⟨(legacyUpgrade env c v (mkRecord env c v false s0.clock)
            { s0 with clock := s0.clock + 1 }).2.1, ?_, h1, h3, h4, h5, ?_, ?_⟩
        · rw [hh]
        · rw [h4, h6]
          simp only [Bool.not_false, Bool.and_true, Option.isSome_none, Bool.or_false]
          rcases hcase with ⟨_, hsu, het⟩ | ⟨_, hsu, het⟩
          · rw [het, hsu]
          · rw [het, hsu, mkRecord_success, mkRecord_end_time]
            rfl
        · intro herr
          rw [h6] at herr
          simp at herr

/-- C1 counterexample: a dry-run invocation (with passing preflight)
appends its single record with `success=True` but without any
`end_time` key, contradicting the claim that the record always carries
the attempt's end timestamp. -/
theorem dry_run_record_has_no_end_time :
    ((perform_upgrade envAllOk "story" "1.3.0" true initState).2.history.map
      (fun r => (r.success, r.dry_run, r.end_time))) = [(true, true, none)] := by
  rfl

/-- Path equation for `_perform_legacy_upgrade` when everything up to and
including binary replacement succeeds and the service start then fails:
exactly one `_rollback` call happens and the exception is swallowed by
the legacy handler, returning a failure without touching the record. -/
theorem legacyUpgrade_start_fail_eq (env : RunnerEnv) (c v : String)
    (r0 : UpgradeRecord) (s : RunnerState)
    (hb : env.backupExc = none) (hd : env.downloadOk = true)
    (hv : env.verifyOk = true) (hstop : env.stopOk s.stopCalls = true)
    (hr : env.replaceOk = true) (hstart : env.startOk s.startCalls = false) :
    legacyUpgrade env c v r0 s =
      ((false, "Failed to start service after upgrade"),
       { r0 with backup_path := some env.backupPath },
       rollbackRun env
         { s with backupCalls := s.backupCalls + 1,
                  downloadCalls := s.downloadCalls + 1,
                  stopCalls := s.stopCalls + 1,
                  startCalls := s.startCalls + 1 }) := by
  unfold legacyUpgrade
  rw [hb]
  simp only [hd, hv, hstop, hr, hstart]
  rfl

/-- C3: in a non-dry-run legacy upgrade where preflight, backup, download,
verification, service stop and binary replacement all succeed and the
service start then fails, the attempt returns failure, its appended
record has `success=False`, and exactly one rollback attempt is
performed — never zero, never more than one. -/
theorem start_failure_exactly_one_rollback (env : RunnerEnv) (c v : String)
    (s0 : RunnerState) (hp : env.preflightOk = true)
    (hs : env.scriptExists = false) (hb : env.backupExc = none)
    (hd : env.downloadOk = true) (hv : env.verifyOk = true)
    (hstop : env.stopOk s0.stopCalls = true) (hr : env.replaceOk = true)
    (hstart : env.startOk s0.startCalls = false) :
    (perform_upgrade env c v false s0).2.rollbackCalls = s0.rollbackCalls + 1 ∧
    (perform_upgrade env c v false s0).1.1 = false ∧
    ∃ r, (perform_upgrade env c v false s0).2.history = s0.history ++ [r] ∧
      r.success = false := by
  rw [perform_upgrade_legacy_eq env c v s0 hp hs,
      legacyUpgrade_start_fail_eq env c v (mkRecord env c v false s0.clock)
        { s0 with clock := s0.clock + 1 } hb hd hv hstop hr hstart]
  unfold rollbackRun
  cases hrr : env.rollbackRestoreExc with
  | true => exact ⟨rfl, rfl, _, rfl, rfl⟩
  | false => exact ⟨rfl, rfl, _, rfl, rfl⟩

/-- Witness for C3 at a concrete environment and state. -/
theorem start_failure_exactly_one_rollback_witness :
    (perform_upgrade envStartFail "story" "1.3.0" false initState).2.rollbackCalls =
      initState.rollbackCalls + 1 ∧
    (perform_upgrade envStartFail "story" "1.3.0" false initState).1.1 = false ∧
    ∃ r, (perform_upgrade envStartFail "story" "1.3.0" false initState).2.history =
      initState.history ++ [r] ∧ r.success = false :=
  start_failure_exactly_one_rollback envStartFail "story" "1.3.0" initState
    rfl rfl rfl rfl rfl rfl rfl rfl

/-- C4 counterexample: with dry_run=True but failing pre-upgrade checks,
the appended record has `dry_run=True` and `success=False`, contradicting
the claim that the dry-run record always has `success=true`.  (Preflight
runs before the dry-run short circuit.) -/
theorem dry_run_record_can_fail :
    ((perform_upgrade envPreflightFail "story" "1.3.0" true initState).2.history.map
      (fun r => (r.dry_run, r.success))) = [(true, false)] := by
  rfl

/-- C4 (amended): a dry-run invocation never performs a backup, download,
service-stop or service-start operation, and always appends exactly one
record with `dry_run=true`; that record has `success=true` exactly when
the pre-upgrade checks pass (preflight runs before the dry-run short
circuit, so a preflight failure is recorded as a failed dry-run). -/
theorem dry_run_purity (env : RunnerEnv) (c v : String) (s0 : RunnerState) :
    (perform_upgrade env c v true s0).2.backupCalls = s0.backupCalls ∧
    (perform_upgrade env c v true s0).2.downloadCalls = s0.downloadCalls ∧
    (perform_upgrade env c v true s0).2.stopCalls = s0.stopCalls ∧
    (perform_upgrade env c v true s0).2.startCalls = s0.startCalls ∧
    ∃ r, (perform_upgrade env c v true s0).2.history = s0.history ++ [r] ∧
      r.dry_run = true ∧ r.success = env.preflightOk := by
  cases hp : env.preflightOk with
  | false =>
    rw [perform_upgrade_preflight_fail_eq env c v true s0 hp]
    exact ⟨rfl, rfl, rfl, rfl, _, rfl, rfl, rfl⟩
  | true =>
    rw [perform_upgrade_dry_run_eq env c v s0 hp]
    exact ⟨rfl, rfl, rfl, rfl, _, rfl, rfl, rfl⟩

/-- C5: if the pre-upgrade checks fail, `perform_upgrade` aborts before any
mutation — no backup is created, no download happens, and no service stop
or start is issued; the call returns failure and the only effect is the
single appended record marking the attempt failed (with the error text
and timestamps stamped by the outer handler). -/
theorem preflight_failure_aborts (env : RunnerEnv) (c v : String) (d : Bool)
    (s0 : RunnerState) (h : env.preflightOk = false) :
    (perform_upgrade env c v d s0).2.backupCalls = s0.backupCalls ∧
    (perform_upgrade env c v d s0).2.downloadCalls = s0.downloadCalls ∧
    (perform_upgrade env c v d s0).2.stopCalls = s0.stopCalls ∧
    (perform_upgrade env c v d s0).2.startCalls = s0.startCalls ∧
    (perform_upgrade env c v d s0).2.rollbackCalls = s0.rollbackCalls ∧
    (perform_upgrade env c v d s0).1.1 = false ∧
    (perform_upgrade env c v d s0).2.history = s0.history ++
      [{ mkRecord env c v d s0.clock with
         success := false, error := some "Pre-upgrade checks failed",
         end_time := some (s0.clock + 1) }] := by
  rw [perform_upgrade_preflight_fail_eq env c v d s0 h]
  exact ⟨rfl, rfl, rfl, rfl, rfl, rfl, rfl⟩

/-- Witness for C5 at a concrete environment and state. -/
theorem preflight_failure_aborts_witness :
    (perform_upgrade envPreflightFail "story" "1.3.0" false initState).2.backupCalls =
      initState.backupCalls ∧
    (perform_upgrade envPreflightFail "story" "1.3.0" false initState).2.downloadCalls =
      initState.downloadCalls ∧
    (perform_upgrade envPreflightFail "story" "1.3.0" false initState).2.stopCalls =
      initState.stopCalls ∧
    (perform_upgrade envPreflightFail "story" "1.3.0" false initState).2.startCalls =
      initState.startCalls ∧
    (perform_upgrade envPreflightFail "story" "1.3.0" false initState).2.rollbackCalls =
      initState.rollbackCalls ∧
    (perform_upgrade envPreflightFail "story" "1.3.0" false initState).1.1 = false ∧
    (perform_upgrade envPreflightFail "story" "1.3.0" false initState).2.history =
      initState.history ++
        [{ mkRecord envPreflightFail "story" "1.3.0" false initState.clock with
           success := false, error := some "Pre-upgrade checks failed",
           end_time := some (initState.clock + 1) }] :=
  preflight_failure_aborts envPreflightFail "story" "1.3.0" false initState rfl

theorem digitChar_isDigit (d : Nat) : (digitChar d).isDigit = true := by
  unfold digitChar
  split <;> decide

theorem charToDigit_digitChar (d : Nat) (h : d < 10) :
    charToDigit (digitChar d) = d := by
  interval_cases d <;> decide

theorem natToChars_all_digits (n : Nat) :
    ∀ c ∈ natToChars n, c.isDigit = true := by
  unfold natToChars
  by_cases h : n = 0
  · rw [if_pos h]
    intro c hc
    simp at hc
    subst hc
    decide
  · rw [if_neg h]
    intro c hc
    obtain ⟨d, _, rfl⟩ := List.mem_map.mp hc
    exact digitChar_isDigit d

theorem natToChars_ne_nil (n : Nat) : natToChars n ≠ [] := by
  unfold natToChars
  by_cases h : n = 0
  · rw [if_pos h]; simp
  · rw [if_neg h]
    simp [Nat.digits_ne_nil_iff_ne_zero.mpr h]

theorem runVal_aux (l : List Nat) (a : Nat) (h : ∀ d ∈ l, d < 10) :
    ((l.reverse.map digitChar).foldl (fun acc c => 10 * acc + charToDigit c) a) =
      a * 10 ^ l.length + Nat.ofDigits 10 l := by
  induction l generalizing a with
  | nil => simp
  | cons d t ih =>
    simp only [List.reverse_cons, List.map_append, List.foldl_append,
      List.map_cons, List.map_nil, List.foldl_cons, List.foldl_nil,
      List.length_cons, Nat.ofDigits_cons]
    rw [ih a (fun x hx => h x (List.mem_cons_of_mem _ hx))]
    rw [charToDigit_digitChar d (h d (List.mem_cons_self _ _))]
    ring

theorem runVal_natToChars (n : Nat) : runVal (natToChars n) = n := by
  unfold natToChars runVal
  by_cases h : n = 0
  · rw [if_pos h, h]; decide
  · rw [if_neg h]
    have := runVal_aux (Nat.digits 10 n) 0
      (fun d hd => Nat.digits_lt_base (by norm_num) hd)
    simpa [Nat.ofDigits_digits] using this

theorem pad2_all_digits (n : Nat) : ∀ c ∈ pad2 n, c.isDigit = true := by
  unfold pad2
  by_cases h : n < 10
  · rw [if_pos h]
    intro c hc
    rcases List.mem_cons.mp hc with rfl | hc
    · decide
    · exact natToChars_all_digits n c hc
  · rw [if_neg h]
    exact natToChars_all_digits n

theorem pad2_ne_nil (n : Nat) : pad2 n ≠ [] := by
  unfold pad2
  by_cases h : n < 10
  · rw [if_pos h]; simp
  · rw [if_neg h]; exact natToChars_ne_nil n

theorem runVal_pad2 (n : Nat) : runVal (pad2 n) = n := by
  unfold pad2
  by_cases h : n < 10
  · rw [if_pos h]
    show runVal ('0' :: natToChars n) = n
    unfold runVal
    rw [List.foldl_cons]
    have : (10 * 0 + charToDigit '0') = 0 := by decide
    rw [this]
    exact runVal_natToChars n
  · rw [if_neg h]
    exact runVal_natToChars n

theorem isDigit_ne_colon (c : Char) (h : c.isDigit = true) : c ≠ ':' := by
  intro hc
  subst hc
  simp [Char.isDigit] at h

theorem colon_not_mem_natToChars (n : Nat) : ':' ∉ natToChars n := by
  intro hmem
  exact absurd rfl (isDigit_ne_colon ':' (natToChars_all_digits n ':' hmem))

theorem colon_not_mem_pad2 (n : Nat) : ':' ∉ pad2 n := by
  intro hmem
  exact absurd rfl (isDigit_ne_colon ':' (pad2_all_digits n ':' hmem))

theorem pyInt_of_digits (cs : List Char) (h1 : cs ≠ [])
    (h2 : ∀ c ∈ cs, c.isDigit = true) : pyInt cs = some (runVal cs) := by
  unfold pyInt
  rw [if_pos ⟨h1, List.all_eq_true.mpr h2⟩]

theorem splitOnChar_of_not_mem (sep : Char) (cs : List Char) (h : sep ∉ cs) :
    splitOnChar sep cs = [cs] := by
  induction cs with
  | nil => rfl
  | cons c cs ih =>
    have hx : ¬ c = sep := by
      intro hc
      subst hc
      exact h (List.mem_cons_self _ _)
    have hcs := ih (fun hm => h (List.mem_cons_of_mem c hm))
    show (if c = sep then [] :: splitOnChar sep cs
          else match splitOnChar sep cs with
               | [] => [[c]]
               | r :: rs => (c :: r) :: rs) = [c :: cs]
    rw [if_neg hx, hcs]

theorem splitOnChar_append (sep : Char) (xs ys : List Char) (h : sep ∉ xs) :
    splitOnChar sep (xs ++ sep :: ys) = xs :: splitOnChar sep ys := by
  induction xs with
  | nil =>
    show (if sep = sep then [] :: splitOnChar sep ys
          else match splitOnChar sep ys with
               | [] => [[sep]]
               | r :: rs => (sep :: r) :: rs) = [] :: splitOnChar sep ys
    rw [if_pos rfl]
  | cons x xs ih =>
    have hx : ¬ x = sep := by
      intro hc
      subst hc
      exact h (List.mem_cons_self _ _)
    have hxs := ih (fun hm => h (List.mem_cons_of_mem x hm))
    show (if x = sep then [] :: splitOnChar sep (xs ++ sep :: ys)
          else match splitOnChar sep (xs ++ sep :: ys) with
               | [] => [[x]]
               | r :: rs => (x :: r) :: rs) =
         (x :: xs) :: splitOnChar sep ys
    rw [if_neg hx, hxs]

theorem parseDurationStr_pyStrTimedelta (secs : Nat) (h : secs < 86400) :
    parseDurationStr (pyStrTimedelta secs) = some secs := by
  have hd0 : secs / 86400 = 0 := Nat.div_eq_of_lt h
  unfold pyStrTimedelta
  rw [if_pos hd0]
  unfold parseDurationStr
  rw [if_pos (List.mem_append_right _ (List.mem_cons_self _ _))]
  rw [splitOnChar_append ':' (natToChars (secs % 86400 / 3600))
        (pad2 (secs % 3600 / 60) ++ (':' :: pad2 (secs % 60)))
        (colon_not_mem_natToChars _)]
  rw [splitOnChar_append ':' (pad2 (secs % 3600 / 60)) (pad2 (secs % 60))
        (colon_not_mem_pad2 _)]
  rw [splitOnChar_of_not_mem ':' (pad2 (secs % 60)) (colon_not_mem_pad2 _)]
  dsimp only
  rw [pyInt_of_digits _ (natToChars_ne_nil _) (natToChars_all_digits _)]
  rw [pyInt_of_digits _ (pad2_ne_nil _) (pad2_all_digits _)]
  rw [pyInt_of_digits _ (pad2_ne_nil _) (pad2_all_digits _)]
  rw [runVal_natToChars, runVal_pad2, runVal_pad2]
  dsimp only
  have harith : 3600 * (secs % 86400 / 3600) + 60 * (secs % 3600 / 60) +
      secs % 60 = secs := by omega
  rw [harith]

/-- C10: for every `ScheduledUpgrade` whose estimated duration is a
non-negative whole number of seconds below 24 hours,
`from_dict(to_dict(u))` reconstructs `u` field by field: the JSON
serialization round-trips, including status, approval_required, notes
and scheduled_time. -/
theorem scheduled_upgrade_roundtrip (u : ScheduledUpgrade)
    (h : u.estimated_duration < 86400) :
    from_dict (to_dict u) = some u := by
  unfold to_dict from_dict
  rw [show (ScheduledUpgradeDict.mk u.component u.current_version
      u.target_version u.scheduled_time (pyStrTimedelta u.estimated_duration)
      u.status u.approval_required u.notes).estimated_duration_str =
      pyStrTimedelta u.estimated_duration from rfl]
  rw [parseDurationStr_pyStrTimedelta u.estimated_duration h]

/-- Witness for C10 at a concrete scheduled upgrade. -/
theorem scheduled_upgrade_roundtrip_witness :
    sampleUpgrade.estimated_duration < 86400 ∧
    from_dict (to_dict sampleUpgrade) = some sampleUpgrade :=
  ⟨by decide, scheduled_upgrade_roundtrip sampleUpgrade (by decide)⟩

theorem windowStep_ge (w : Int) (u : ScheduledUpgrade) : w ≤ windowStep w u := by
  unfold windowStep
  split
  · rename_i hcond
    obtain ⟨_, _, h2⟩ := hcond
    omega
  · exact le_refl w

theorem foldl_windowStep_ge (l : List ScheduledUpgrade) (w : Int) :
    w ≤ l.foldl windowStep w := by
  induction l generalizing w with
  | nil => exact le_refl w
  | cons u t ih => exact le_trans (windowStep_ge w u) (ih (windowStep w u))

theorem foldl_windowStep_gt (l : List ScheduledUpgrade) (w : Int)
    (e : ScheduledUpgrade) (he : e ∈ l)
    (hst : e.status = "pending" ∨ e.status = "approved")
    (h1 : e.scheduled_time ≤ w)
    (_h2 : w ≤ e.scheduled_time + (e.estimated_duration : Int)) :
    e.scheduled_time + (e.estimated_duration : Int) < l.foldl windowStep w := by
  obtain ⟨l1, l2, rfl⟩ := List.append_of_mem he
  rw [List.foldl_append, List.foldl_cons]
  have hw1 : w ≤ l1.foldl windowStep w := foldl_windowStep_ge l1 w
  have hstep : e.scheduled_time + (e.estimated_duration : Int) <
      windowStep (l1.foldl windowStep w) e := by
    unfold windowStep
    split
    · omega
    · rename_i hcond
      by_contra hle
      push_neg at hle
      exact hcond ⟨hst, le_trans h1 hw1, hle⟩
  exact lt_of_lt_of_le hstep (foldl_windowStep_ge l2 _)

/-- C6 counterexample: the default window (02:00, i.e. second 7200)
falls inside pending entry B's interval [5400, 9600], yet scheduling
with no explicit time yields scheduled_time 10800 (entry A pushed the
window to 9000+1800), which is below B's end + 30 min = 11400. -/
theorem schedule_conflict_buffer_violated :
    (winEntryB.status = "pending" ∨ winEntryB.status = "approved") ∧
    winEntryB.scheduled_time ≤ defaultWindow 0 ∧
    defaultWindow 0 ≤ winEntryB.scheduled_time +
      (winEntryB.estimated_duration : Int) ∧
    (schedule_upgrade 0 [winEntryA, winEntryB] "story" "1.2.0" "1.3.0"
        none false).1.scheduled_time <
      winEntryB.scheduled_time + (winEntryB.estimated_duration : Int) + 1800 := by
  refine ⟨Or.inl rfl, by decide, by decide, by decide⟩

/-- C6 (amended): when `schedule_upgrade` is called without an explicit
time and the computed default maintenance window falls inside a
pending/approved entry's `[scheduled_time,
scheduled_time+estimated_duration]` interval, the new entry's scheduled
time is strictly greater than that entry's `scheduled_time +
estimated_duration` and at least the default window — but it need not
reach `scheduled_time + estimated_duration + 30min` when several
entries' intervals overlap (a conflict with an earlier-listed entry can
carry the window past the later entry's interval with less than the full
buffer). -/
theorem schedule_after_conflicting_window (now : Nat)
    (entries : List ScheduledUpgrade) (c cv tv : String) (aa : Bool)
    (e : ScheduledUpgrade) (he : e ∈ entries)
    (hst : e.status = "pending" ∨ e.status = "approved")
    (h1 : e.scheduled_time ≤ defaultWindow now)
    (h2 : defaultWindow now ≤ e.scheduled_time + (e.estimated_duration : Int)) :
    e.scheduled_time + (e.estimated_duration : Int) <
      (schedule_upgrade now entries c cv tv none aa).1.scheduled_time ∧
    defaultWindow now ≤
      (schedule_upgrade now entries c cv tv none aa).1.scheduled_time :=
  ⟨foldl_windowStep_gt entries (defaultWindow now) e he hst h1 h2,
   foldl_windowStep_ge entries (defaultWindow now)⟩

/-- Witness for C6 (amended) at a concrete schedule with one conflicting
entry. -/
theorem schedule_after_conflicting_window_witness :
    winEntryB.scheduled_time + (winEntryB.estimated_duration : Int) <
      (schedule_upgrade 0 [winEntryB] "story" "1.2.0" "1.3.0"
        none false).1.scheduled_time ∧
    defaultWindow 0 ≤
      (schedule_upgrade 0 [winEntryB] "story" "1.2.0" "1.3.0"
        none false).1.scheduled_time :=
  schedule_after_conflicting_window 0 [winEntryB] "story" "1.2.0" "1.3.0"
    false winEntryB (List.mem_singleton.mpr rfl) (Or.inl rfl)
    (by decide) (by decide)

/-- C9 counterexample: with `now` thirty days after this completed
entry's scheduled time and a thirty-day cutoff, the entry's scheduled
time equals the cutoff — it does not predate it — yet
`cleanup_old_upgrades` removes it (the code keeps only entries with
scheduled time strictly after the cutoff). -/
theorem cleanup_removes_boundary_entry :
    staleCompleted.status = "completed" ∧
    ¬ staleCompleted.scheduled_time < 30 * 86400 - (30 : Nat) * 86400 ∧
    cleanup_old_upgrades (30 * 86400) 30 [staleCompleted] = [] := by
  refine ⟨rfl, by decide, by decide⟩

/-- C9 (amended): `cleanup_old_upgrades` retains every `pending` or
`approved` entry regardless of age, and removes a `completed` or
`cancelled` entry iff its scheduled time is not strictly after the
cutoff `now - days` (so an entry scheduled exactly at the cutoff is
removed, although it does not strictly predate it). -/
theorem cleanup_old_upgrades_spec (now : Int) (days : Nat)
    (entries : List ScheduledUpgrade) (u : ScheduledUpgrade)
    (hu : u ∈ entries) :
    ((u.status = "pending" ∨ u.status = "approved") →
      u ∈ cleanup_old_upgrades now days entries) ∧
    ((u.status = "completed" ∨ u.status = "cancelled") →
      (u ∈ cleanup_old_upgrades now days entries ↔
        u.scheduled_time > now - (days : Int) * 86400)) := by
  unfold cleanup_old_upgrades
  constructor
  · intro h
    rw [List.mem_filter]
    refine ⟨hu, decide_eq_true ?_⟩
    rcases h with h | h
    · exact Or.inl h
    · exact Or.inr (Or.inl h)
  · intro h
    rw [List.mem_filter]
    constructor
    · rintro ⟨_, hp⟩
      rcases of_decide_eq_true hp with h1 | h1 | h1
      · rcases h with h2 | h2 <;> rw [h2] at h1 <;> simp at h1
      · rcases h with h2 | h2 <;> rw [h2] at h1 <;> simp at h1
      · exact h1
    · intro hgt
      exact ⟨hu, decide_eq_true (Or.inr (Or.inr hgt))⟩

/-- Witness for C9 (amended) at a concrete schedule. -/
theorem cleanup_old_upgrades_spec_witness :
    ((oldPending.status = "pending" ∨ oldPending.status = "approved") →
      oldPending ∈ cleanup_old_upgrades (30 * 86400) 30
        [oldPending, staleCompleted]) ∧
    ((oldPending.status = "completed" ∨ oldPending.status = "cancelled") →
      (oldPending ∈ cleanup_old_upgrades (30 * 86400) 30
          [oldPending, staleCompleted] ↔
        oldPending.scheduled_time > 30 * 86400 - (30 : Nat) * 86400)) :=
  cleanup_old_upgrades_spec (30 * 86400) 30 [oldPending, staleCompleted]
    oldPending (List.mem_cons_self _ _)

theorem rpcNetPart_preserves (env : StoryEnv) (c : StoryChecks) :
    (rpcNetPart env c).catching_up = c.catching_up ∧
    (rpcNetPart env c).service_running = c.service_running := by
  unfold rpcNetPart
  cases hn : env.netCall with
  | error e => exact ⟨rfl, rfl⟩
  | ok np =>
    dsimp only
    by_cases hr : np.hasResult = true
    · rw [if_pos hr]
      cases hp : np.peerCount with
      | error e => exact ⟨rfl, rfl⟩
      | ok p => exact ⟨rfl, rfl⟩
    · rw [if_neg hr]
      exact ⟨rfl, rfl⟩

theorem rpcBlock_catchingUp (env : StoryEnv) (c0 : StoryChecks)
    (sp : StatusPayload) (v : PyVal) (hsc : env.statusCall = Except.ok sp)
    (hres : sp.hasResult = true) (hcu : sp.catchingUp = Except.ok v) :
    (rpcBlock env c0).catching_up = v ∧
    (rpcBlock env c0).service_running = c0.service_running := by
  unfold rpcBlock rpcStatusPart
  rw [hsc]
  dsimp only
  rw [hres, if_pos rfl, hcu]
  dsimp only
  cases hh : sp.heightVal with
  | error e => exact ⟨rfl, rfl⟩
  | ok hv =>
    dsimp only
    cases hl : sp.latestBlockTime with
    | error e => exact ⟨rfl, rfl⟩
    | ok lbt =>
      dsimp only
      cases hvi : sp.hasValidatorInfo with
      | false =>
        rw [if_neg Bool.false_ne_true]
        obtain ⟨hc, hs⟩ := rpcNetPart_preserves env
          { c0 with rpc_responsive := true, catching_up := v,
                    latest_block_height := hv, latest_block_time := lbt }
        exact ⟨by rw [hc], by rw [hs]⟩
      | true =>
        rw [if_pos rfl]
        cases hvp : sp.votingPower with
        | error e => exact ⟨rfl, rfl⟩
        | ok vp =>
          obtain ⟨hc, hs⟩ := rpcNetPart_preserves env
            { c0 with rpc_responsive := true, catching_up := v,
                      latest_block_height := hv, latest_block_time := lbt,
                      voting_power := vp }
          exact ⟨by rw [hc], by rw [hs]⟩

theorem journalStage_preserves (env : StoryEnv) (c : StoryChecks) :
    (journalStage env c).catching_up = c.catching_up ∧
    (journalStage env c).service_running = c.service_running := by
  unfold journalStage
  cases env.journalCall <;> exact ⟨rfl, rfl⟩

theorem memStage_preserves (env : StoryEnv) (c : StoryChecks) :
    (memStage env c).catching_up = c.catching_up ∧
    (memStage env c).service_running = c.service_running := by
  unfold memStage
  cases env.memCall <;> exact ⟨rfl, rfl⟩

theorem checksMid_catchingUp (env : StoryEnv) (sp : StatusPayload) (v : PyVal)
    (hsc : env.statusCall = Except.ok sp) (hres : sp.hasResult = true)
    (hcu : sp.catchingUp = Except.ok v)
    (hsr : (checksMid env).service_running = true) :
    (checksMid env).catching_up = v := by
  unfold checksMid at *
  obtain ⟨hmc, hms⟩ := memStage_preserves env (journalStage env
    (if (svcStage env).service_running then rpcBlock env (svcStage env)
     else svcStage env))
  obtain ⟨hjc, hjs⟩ := journalStage_preserves env
    (if (svcStage env).service_running then rpcBlock env (svcStage env)
     else svcStage env)
  rw [hms, hjs] at hsr
  rw [hmc, hjc]
  by_cases hsv : (svcStage env).service_running = true
  · rw [if_pos hsv]
    exact (rpcBlock_catchingUp env (svcStage env) sp v hsc hres hcu).1
  · rw [if_neg hsv] at hsr
    exact absurd hsr hsv

theorem svcStage_fields (env : StoryEnv) :
    (svcStage env).rpc_responsive = false ∧
    (svcStage env).catching_up = PyVal.pynone ∧
    (svcStage env).latest_block_height = 0 ∧
    (svcStage env).latest_block_time = PyVal.pynone ∧
    (svcStage env).peer_count = 0 ∧
    (svcStage env).memory_usage_mb = 0 ∧
    (svcStage env).app_hash_errors = 0 := by
  unfold svcStage
  by_cases hd : env.dockerMode = true
  · rw [if_pos hd]
    exact ⟨rfl, rfl, rfl, rfl, rfl, rfl, rfl⟩
  · rw [if_neg hd]
    cases hs : env.svcCheck <;> exact ⟨rfl, rfl, rfl, rfl, rfl, rfl, rfl⟩

theorem journalStage_fields (env : StoryEnv) (c : StoryChecks) :
    (journalStage env c).service_running = c.service_running ∧
    (journalStage env c).rpc_responsive = c.rpc_responsive ∧
    (journalStage env c).catching_up = c.catching_up ∧
    (journalStage env c).latest_block_height = c.latest_block_height ∧
    (journalStage env c).latest_block_time = c.latest_block_time ∧
    (journalStage env c).peer_count = c.peer_count ∧
    (journalStage env c).memory_usage_mb = c.memory_usage_mb := by
  unfold journalStage
  cases env.journalCall <;> exact ⟨rfl, rfl, rfl, rfl, rfl, rfl, rfl⟩

theorem memStage_fields (env : StoryEnv) (c : StoryChecks) :
    (memStage env c).service_running = c.service_running ∧
    (memStage env c).rpc_responsive = c.rpc_responsive ∧
    (memStage env c).catching_up = c.catching_up ∧
    (memStage env c).latest_block_height = c.latest_block_height ∧
    (memStage env c).latest_block_time = c.latest_block_time ∧
    (memStage env c).peer_count = c.peer_count ∧
    (memStage env c).app_hash_errors = c.app_hash_errors := by
  unfold memStage
  cases env.memCall <;> exact ⟨rfl, rfl, rfl, rfl, rfl, rfl, rfl⟩

theorem rpcNetPart_untouched (env : StoryEnv) (c : StoryChecks) :
    (rpcNetPart env c).service_running = c.service_running ∧
    (rpcNetPart env c).memory_usage_mb = c.memory_usage_mb ∧
    (rpcNetPart env c).app_hash_errors = c.app_hash_errors := by
  unfold rpcNetPart
  cases hn : env.netCall with
  | error e => exact ⟨rfl, rfl, rfl⟩
  | ok np =>
    dsimp only
    by_cases hr : np.hasResult = true
    · rw [if_pos hr]
      cases hp : np.peerCount with
      | error e => exact ⟨rfl, rfl, rfl⟩
      | ok p => exact ⟨rfl, rfl, rfl⟩
    · rw [if_neg hr]
      exact ⟨rfl, rfl, rfl⟩

theorem rpcBlock_untouched (env : StoryEnv) (c0 : StoryChecks) :
    (rpcBlock env c0).service_running = c0.service_running ∧
    (rpcBlock env c0).memory_usage_mb = c0.memory_usage_mb ∧
    (rpcBlock env c0).app_hash_errors = c0.app_hash_errors := by
  unfold rpcBlock rpcStatusPart
  cases hst : env.statusCall with
  | error e => exact ⟨rfl, rfl, rfl⟩
  | ok sp =>
    dsimp only
    by_cases hres : sp.hasResult = true
    · rw [if_pos hres]
      cases hcu : sp.catchingUp with
      | error e => exact ⟨rfl, rfl, rfl⟩
      | ok cu =>
        dsimp only
        cases hh : sp.heightVal with
        | error e => exact ⟨rfl, rfl, rfl⟩
        | ok hv =>
          dsimp only
          cases hl : sp.latestBlockTime with
          | error e => exact ⟨rfl, rfl, rfl⟩
          | ok lbt =>
            dsimp only
            by_cases hvi : sp.hasValidatorInfo = true
            · rw [if_pos hvi]
              cases hvp : sp.votingPower with
              | error e => exact ⟨rfl, rfl, rfl⟩
              | ok vp =>
                dsimp only
                obtain ⟨hn1, hn2, hn3⟩ := rpcNetPart_untouched env
                  { c0 with rpc_responsive := true, catching_up := cu,
                            latest_block_height := hv, latest_block_time := lbt,
                            voting_power := vp }
                exact ⟨by rw [hn1], by rw [hn2], by rw [hn3]⟩
            · rw [if_neg hvi]
              obtain ⟨hn1, hn2, hn3⟩ := rpcNetPart_untouched env
                { c0 with rpc_responsive := true, catching_up := cu,
                          latest_block_height := hv, latest_block_time := lbt }
              exact ⟨by rw [hn1], by rw [hn2], by rw [hn3]⟩
    · rw [if_neg hres]
      obtain ⟨hn1, hn2, hn3⟩ := rpcNetPart_untouched env c0
      exact ⟨by rw [hn1], by rw [hn2], by rw [hn3]⟩

/-- C7: whenever the consensus-client status call reports
`catching_up=true` (the RPC response carries a `result` whose
`sync_info.catching_up` is boolean true), any health report the probe
returns has `healthy=false`, for all peer counts and app-hash-error
counts. -/
theorem catching_up_reports_unhealthy (env : StoryEnv) (lastBT : Option Int)
    (sp : StatusPayload) (hsc : env.statusCall = Except.ok sp)
    (hres : sp.hasResult = true)
    (hcu : sp.catchingUp = Except.ok (PyVal.pybool true))
    (h : StoryHealth) (s : Option Int)
    (hout : checkStory env lastBT = Except.ok (h, s)) :
    h.healthy = false := by
  unfold checkStory at hout
  dsimp only at hout
  cases hbt : blockTimePart env lastBT (checksMid env).latest_block_time with
  | error e =>
    rw [hbt] at hout
    exact absurd hout (by simp)
  | ok pr =>
    rw [hbt] at hout
    obtain ⟨bth, nl⟩ := pr
    dsimp only at hout
    rw [Except.ok.injEq, Prod.mk.injEq] at hout
    obtain ⟨hh1, _⟩ := hout
    subst hh1
    dsimp only
    by_cases hsr : (checksMid env).service_running = true
    · rw [checksMid_catchingUp env sp (PyVal.pybool true) hsc hres hcu hsr]
      simp [pyTruthy]
    · have hf : (checksMid env).service_running = false := by
        cases hx : (checksMid env).service_running
        · rfl
        · exact absurd hx hsr
      rw [hf]
      simp

/-- Witness for C7 at a concrete probe environment. -/
theorem catching_up_reports_unhealthy_witness :
    ∃ h s, checkStory envCatchingUp none = Except.ok (h, s) ∧
      h.healthy = false := by
  refine ⟨_, _, rfl, ?_⟩
  exact catching_up_reports_unhealthy envCatchingUp none spCatchingUp
    rfl rfl rfl _ _ rfl

theorem blockTimePart_falsy (env : StoryEnv) (lastBT : Option Int)
    (lbt : PyVal) (h : pyTruthy lbt = false) :
    blockTimePart env lastBT lbt = Except.ok (true, lastBT) := by
  simp [blockTimePart, h]

/-- C8 (amended): exceptions raised inside the four handled sub-checks
of the consensus probe (service liveness, the RPC sequence, the journal
scan, the memory lookup) are caught and leave the corresponding checks
at their unhealthy defaults (false/zero/None), and when the recorded
`latest_block_time` is falsy the probe returns normally; but the
block-production section is outside every handler, so a non-string or
unparsable `latest_block_time` makes the probe propagate an exception to
its caller. -/
theorem sub_check_exceptions_defaulted (env : StoryEnv) (lastBT : Option Int) :
    (pyTruthy (checksMid env).latest_block_time = false →
      ∃ hr s, checkStory env lastBT = Except.ok (hr, s)) ∧
    (∀ e, env.svcCheck = Except.error e → env.dockerMode = false →
      (checksMid env).service_running = false) ∧
    (∀ e, env.statusCall = Except.error e →
      (checksMid env).rpc_responsive = false ∧
      (checksMid env).catching_up = PyVal.pynone ∧
      (checksMid env).latest_block_height = 0 ∧
      (checksMid env).latest_block_time = PyVal.pynone ∧
      (checksMid env).peer_count = 0) ∧
    (∀ e, env.journalCall = Except.error e →
      (checksMid env).app_hash_errors = 0) ∧
    (∀ e, env.memCall = Except.error e →
      (checksMid env).memory_usage_mb = 0) := by
  refine ⟨?_, ?_, ?_, ?_, ?_⟩
  · intro hf
    unfold checkStory
    dsimp only
    rw [blockTimePart_falsy env lastBT _ hf]
    exact ⟨_, _, rfl⟩
  · intro e hsvc hdm
    unfold checksMid
    obtain ⟨hms, _⟩ := memStage_fields env (journalStage env
      (if (svcStage env).service_running = true then rpcBlock env (svcStage env)
       else svcStage env))
    obtain ⟨hjs, _⟩ := journalStage_fields env
      (if (svcStage env).service_running = true then rpcBlock env (svcStage env)
       else svcStage env)
    rw [hms, hjs]
    have hsf : (svcStage env).service_running = false := by
      unfold svcStage
      rw [if_neg (by rw [hdm]; exact Bool.false_ne_true), hsvc]
      rfl
    rw [if_neg (by rw [hsf]; exact Bool.false_ne_true), hsf]
  · intro e hstat
    have hc2 : (if (svcStage env).service_running = true
        then rpcBlock env (svcStage env) else svcStage env) = svcStage env := by
      by_cases hsr : (svcStage env).service_running = true
      · rw [if_pos hsr]
        unfold rpcBlock
        rw [hstat]
      · rw [if_neg hsr]
    unfold checksMid
    rw [hc2]
    obtain ⟨_, hm2, hm3, hm4, hm5, hm6, _⟩ :=
      memStage_fields env (journalStage env (svcStage env))
    obtain ⟨_, hj2, hj3, hj4, hj5, hj6, _⟩ :=
      journalStage_fields env (svcStage env)
    obtain ⟨hs1, hs2, hs3, hs4, hs5, _, _⟩ := svcStage_fields env
    exact ⟨by rw [hm2, hj2, hs1], by rw [hm3, hj3, hs2],
           by rw [hm4, hj4, hs3], by rw [hm5, hj5, hs4],
           by rw [hm6, hj6, hs5]⟩
  · intro e hj
    unfold checksMid
    obtain ⟨_, _, _, _, _, _, hmA⟩ := memStage_fields env (journalStage env
      (if (svcStage env).service_running = true then rpcBlock env (svcStage env)
       else svcStage env))
    rw [hmA]
    unfold journalStage
    rw [hj]
    by_cases hsr : (svcStage env).service_running = true
    · rw [if_pos hsr, (rpcBlock_untouched env (svcStage env)).2.2]
      exact (svcStage_fields env).2.2.2.2.2.2
    · rw [if_neg hsr]
      exact (svcStage_fields env).2.2.2.2.2.2
  · intro e hm
    unfold checksMid
    unfold memStage
    rw [hm]
    obtain ⟨_, _, _, _, _, _, hjM⟩ := journalStage_fields env
      (if (svcStage env).service_running = true then rpcBlock env (svcStage env)
       else svcStage env)
    rw [hjM]
    by_cases hsr : (svcStage env).service_running = true
    · rw [if_pos hsr, (rpcBlock_untouched env (svcStage env)).2.1]
      exact (svcStage_fields env).2.2.2.2.2.1
    · rw [if_neg hsr]
      exact (svcStage_fields env).2.2.2.2.2.1

/-- C8 counterexample: a status response whose `latest_block_time` is a
number makes the probe raise (`.replace` on a non-string) from the
block-production section, which sits outside every `try/except`; the
exception escapes `_check_story` instead of defaulting a sub-check. -/
theorem probe_propagates_blocktime_exception :
    checkStory envBadBlockTime none =
      Except.error "AttributeError: replace" := by
  rfl

/-- Witness for C8 (amended) at an environment where every handled
sub-check raises: the probe still returns normally with every check at
its unhealthy default. -/
theorem sub_check_exceptions_defaulted_witness :
    (∃ hr s, checkStory envAllErrors none = Except.ok (hr, s)) ∧
    (checksMid envAllErrors).service_running = false ∧
    (checksMid envAllErrors).rpc_responsive = false ∧
    (checksMid envAllErrors).app_hash_errors = 0 ∧
    (checksMid envAllErrors).memory_usage_mb = 0 := by
  obtain ⟨p1, p2, p3, p4, p5⟩ := sub_check_exceptions_defaulted envAllErrors none
  exact ⟨p1 (by rfl), p2 _ rfl rfl, (p3 _ rfl).1, p4 _ rfl, p5 _ rfl⟩
